import Mathlib

/-!
Verification of the compensation-dashboard filtering, aggregation,
comparison and export pipeline (`compensation_dashboard_poc.py`).

The employee tables are shallowly embedded as lists of records; pandas
boolean-mask filtering is embedded as `List.filter`, which models both
the subsequence behaviour and the preserved row order of a mask.
Numeric cells are embedded as rationals; a pandas `NaN` produced by an
aggregation over an empty frame is embedded as `Option.none`.
-/

/-- One row of an employee table (`Employees_2024` / `Employees_2025`).
The columns are the ones the dashboard reads: four categorical columns
plus the two numeric columns `Base_Salary` and `Compa_Ratio`. -/
structure Employee where
  department : String
  jobLevel : String
  gender : String
  ethnicity : String
  baseSalary : ℚ
  compaRatio : ℚ
deriving DecidableEq, Repr

/-- The sidebar filter state (lines 60-102): a multiselect list per
categorical column (empty list means the widget has no selection) and a
closed interval per numeric column from the two range sliders. -/
structure FilterPredicate where
  deptFilter : List String
  jobLevelFilter : List String
  genderFilter : List String
  ethnicityFilter : List String
  minSalary : ℚ
  maxSalary : ℚ
  minCompa : ℚ
  maxCompa : ℚ
deriving DecidableEq, Repr

/-- One conditional categorical filter step, `if x_filter:
df = df[df[col].isin(x_filter)]` (lines 107-114 and 248-255): a Python
empty list is falsy, so an empty selection leaves the frame unchanged. -/
def isinFilter (df : List Employee) (sel : List String) (field : Employee → String) :
    List Employee :=
  if sel.isEmpty then df else df.filter (fun r => sel.contains (field r))

/-- The numeric boolean mask of lines 117-122: base salary and compa
ratio each within their slider interval, inclusive on both ends. -/
def numericMask (p : FilterPredicate) (r : Employee) : Bool :=
  decide (p.minSalary ≤ r.baseSalary) && decide (r.baseSalary ≤ p.maxSalary) &&
    decide (p.minCompa ≤ r.compaRatio) && decide (r.compaRatio ≤ p.maxCompa)

/-- The Filter Engine, `filtered_df` (lines 104-122): the four
conditional categorical `isin` filters followed by the unconditional
numeric range mask. -/
def applyFilters (df : List Employee) (p : FilterPredicate) : List Employee :=
  (isinFilter
    (isinFilter
      (isinFilter
        (isinFilter df p.deptFilter (fun r => r.department))
        p.jobLevelFilter (fun r => r.jobLevel))
      p.genderFilter (fun r => r.gender))
    p.ethnicityFilter (fun r => r.ethnicity)).filter (numericMask p)

/-- The comparator's view of the alternate year, `other_filtered`
(lines 246-255): the same four conditional categorical `isin` filters,
and nothing else — the numeric mask of lines 117-122 is not applied
in that block. -/
def otherFiltered (df : List Employee) (p : FilterPredicate) : List Employee :=
  isinFilter
    (isinFilter
      (isinFilter
        (isinFilter df p.deptFilter (fun r => r.department))
        p.jobLevelFilter (fun r => r.jobLevel))
      p.genderFilter (fun r => r.gender))
    p.ethnicityFilter (fun r => r.ethnicity)

/-- A record satisfies the categorical part of a predicate: membership
in each non-empty selection list; an empty selection constrains
nothing. -/
def satisfiesCategorical (p : FilterPredicate) (r : Employee) : Bool :=
  (p.deptFilter.isEmpty || p.deptFilter.contains r.department) &&
    (p.jobLevelFilter.isEmpty || p.jobLevelFilter.contains r.jobLevel) &&
    (p.genderFilter.isEmpty || p.genderFilter.contains r.gender) &&
    (p.ethnicityFilter.isEmpty || p.ethnicityFilter.contains r.ethnicity)

/-- A record satisfies every active constraint of a predicate:
the categorical memberships and both closed numeric intervals. -/
def satisfiesPredicate (p : FilterPredicate) (r : Employee) : Bool :=
  satisfiesCategorical p r && numericMask p r

lemma isinFilter_sublist (df : List Employee) (sel : List String)
    (field : Employee → String) : List.Sublist (isinFilter df sel field) df := by
  unfold isinFilter
  split
  · exact List.Sublist.refl df
  · exact List.filter_sublist df

lemma mem_isinFilter (df : List Employee) (sel : List String)
    (field : Employee → String) (r : Employee) (h : r ∈ isinFilter df sel field) :
    r ∈ df ∧ (sel.isEmpty || sel.contains (field r)) = true := by
  unfold isinFilter at h
  by_cases hsel : sel.isEmpty
  · rw [if_pos hsel] at h
    exact ⟨h, by simp [hsel]⟩
  · rw [if_neg hsel] at h
    rcases List.mem_filter.mp h with ⟨hmem, hpass⟩
    refine ⟨hmem, ?_⟩
    simp only [Bool.or_eq_true]
    exact Or.inr hpass

lemma isinFilter_eq_self (df : List Employee) (sel : List String)
    (field : Employee → String)
    (h : ∀ r ∈ df, (sel.isEmpty || sel.contains (field r)) = true) :
    isinFilter df sel field = df := by
  unfold isinFilter
  by_cases hsel : sel.isEmpty
  · rw [if_pos hsel]
  · rw [if_neg hsel]
    refine List.filter_eq_self.mpr (fun r hr => ?_)
    have := h r hr
    simpa [hsel] using this

lemma applyFilters_sublist (df : List Employee) (p : FilterPredicate) :
    List.Sublist (applyFilters df p) df := by
  unfold applyFilters
  exact ((List.filter_sublist _).trans (isinFilter_sublist _ _ _)).trans
    (((isinFilter_sublist _ _ _).trans (isinFilter_sublist _ _ _)).trans
      (isinFilter_sublist _ _ _))

lemma mem_applyFilters (df : List Employee) (p : FilterPredicate) (r : Employee)
    (h : r ∈ applyFilters df p) : r ∈ df ∧ satisfiesPredicate p r = true := by
  unfold applyFilters at h
  rcases List.mem_filter.mp h with ⟨h4, hnum⟩
  rcases mem_isinFilter _ _ _ _ h4 with ⟨h3, heth⟩
  rcases mem_isinFilter _ _ _ _ h3 with ⟨h2, hgen⟩
  rcases mem_isinFilter _ _ _ _ h2 with ⟨h1, hjob⟩
  rcases mem_isinFilter _ _ _ _ h1 with ⟨hmem, hdep⟩
  refine ⟨hmem, ?_⟩
  unfold satisfiesPredicate satisfiesCategorical
  simp only [Bool.and_eq_true]
  exact ⟨⟨⟨⟨hdep, hjob⟩, hgen⟩, heth⟩, hnum⟩

lemma applyFilters_eq_self (df : List Employee) (p : FilterPredicate)
    (h : ∀ r ∈ df, satisfiesPredicate p r = true) : applyFilters df p = df := by
  have hsat : ∀ r ∈ df, satisfiesCategorical p r = true ∧ numericMask p r = true := by
    intro r hr
    have := h r hr
    unfold satisfiesPredicate at this
    simp only [Bool.and_eq_true] at this
    exact this
  have hparts : ∀ r ∈ df,
      (p.deptFilter.isEmpty || p.deptFilter.contains r.department) = true ∧
      (p.jobLevelFilter.isEmpty || p.jobLevelFilter.contains r.jobLevel) = true ∧
      (p.genderFilter.isEmpty || p.genderFilter.contains r.gender) = true ∧
      (p.ethnicityFilter.isEmpty || p.ethnicityFilter.contains r.ethnicity) = true := by
    intro r hr
    have := (hsat r hr).1
    unfold satisfiesCategorical at this
    simp only [Bool.and_eq_true] at this
    exact ⟨this.1.1.1, this.1.1.2, this.1.2, this.2⟩
  unfold applyFilters
  rw [isinFilter_eq_self df _ _ (fun r hr => (hparts r hr).1)]
  rw [isinFilter_eq_self df _ _ (fun r hr => (hparts r hr).2.1)]
  rw [isinFilter_eq_self df _ _ (fun r hr => (hparts r hr).2.2.1)]
  rw [isinFilter_eq_self df _ _ (fun r hr => (hparts r hr).2.2.2)]
  exact List.filter_eq_self.mpr (fun r hr => (hsat r hr).2)

/-- Claim C3: for every table and predicate, the Filter Engine returns an
order-preserving subsequence of the table, every record of which satisfies
every active constraint: membership in each non-empty categorical selection
(an empty selection constrains nothing) and both closed numeric intervals,
combined conjunctively. -/
theorem applyFilters_sublist_and_satisfies (df : List Employee) (p : FilterPredicate) :
    List.Sublist (applyFilters df p) df ∧
      ∀ r ∈ applyFilters df p, satisfiesPredicate p r = true :=
  ⟨applyFilters_sublist df p, fun r hr => (mem_applyFilters df p r hr).2⟩

/-- Claim C7: the Filter Engine is idempotent — re-filtering its own
output with the same predicate changes nothing. -/
theorem applyFilters_idempotent (df : List Employee) (p : FilterPredicate) :
    applyFilters (applyFilters df p) p = applyFilters df p :=
  applyFilters_eq_self (applyFilters df p) p
    (fun r hr => (mem_applyFilters df p r hr).2)

/-- Claim C5: a predicate whose numeric interval is malformed (min > max)
is not rejected; the filter totally evaluates and yields the empty view,
because no record can satisfy both ends of an empty interval. -/
theorem applyFilters_malformed_interval_empty (df : List Employee) (p : FilterPredicate)
    (h : p.maxSalary < p.minSalary ∨ p.maxCompa < p.minCompa) :
    applyFilters df p = [] := by
  unfold applyFilters
  refine List.filter_eq_nil_iff.mpr (fun r _ => ?_)
  simp only [numericMask, Bool.and_eq_true, decide_eq_true_eq]
  rintro ⟨⟨⟨hs1, hs2⟩, hc1⟩, hc2⟩
  rcases h with hlt | hlt
  · exact absurd (hs1.trans hs2) (not_le.mpr hlt)
  · exact absurd (hc1.trans hc2) (not_le.mpr hlt)

/-- Pandas column mean: `NaN` (embedded as `none`) over an empty frame,
otherwise the arithmetic mean. -/
def meanOpt (xs : List ℚ) : Option ℚ :=
  if xs.isEmpty then none else some (xs.sum / xs.length)

lemma meanOpt_of_ne_nil (xs : List ℚ) (h : xs ≠ []) :
    meanOpt xs = some (xs.sum / xs.length) := by
  unfold meanOpt
  rw [if_neg (by simpa [List.isEmpty_iff] using h)]

/-- The scalar summary bundle computed by the metrics block
(lines 127-136): employee count, mean compa ratio, the below-midpoint
percentage `(Compa_Ratio < 1).mean() * 100`, and the count with
compa ratio strictly above 1.2. `none` embeds the pandas `NaN`
that each mean produces on an empty frame. -/
structure AggregateSummary where
  totalEmployees : ℕ
  avgCompaRatio : Option ℚ
  belowMidpointPct : Option ℚ
  aboveMaxCount : ℕ
deriving DecidableEq, Repr

/-- The Metrics Aggregator over the filtered view (lines 127-136). -/
def summarize (view : List Employee) : AggregateSummary :=
  { totalEmployees := view.length,
    avgCompaRatio := meanOpt (view.map (fun r => r.compaRatio)),
    belowMidpointPct :=
      Option.map (fun m => m * 100)
        (meanOpt (view.map (fun r => if r.compaRatio < 1 then (1 : ℚ) else 0))),
    aboveMaxCount :=
      (view.filter (fun r => decide ((6 / 5 : ℚ) < r.compaRatio))).length }

/-- Subtraction lifted over the embedded `NaN`: any operand `NaN`
makes the delta `NaN`, as in float arithmetic. -/
def subOpt : Option ℚ → Option ℚ → Option ℚ
  | some a, some b => some (a - b)
  | _, _ => none

/-- Employee-count delta of the year comparison (lines 274-279):
primary year runs through the full Filter Engine, the alternate year
only through the comparator's categorical `other_filtered`. -/
def countDelta (t1 t2 : List Employee) (p : FilterPredicate) : ℤ :=
  ((applyFilters t1 p).length : ℤ) - ((otherFiltered t2 p).length : ℤ)

/-- Mean compa-ratio delta of the year comparison (lines 260-265). -/
def compaDelta (t1 t2 : List Employee) (p : FilterPredicate) : Option ℚ :=
  subOpt (meanOpt ((applyFilters t1 p).map (fun r => r.compaRatio)))
    (meanOpt ((otherFiltered t2 p).map (fun r => r.compaRatio)))

/-- Mean base-salary delta of the year comparison (lines 267-272). -/
def salaryDelta (t1 t2 : List Employee) (p : FilterPredicate) : Option ℚ :=
  subOpt (meanOpt ((applyFilters t1 p).map (fun r => r.baseSalary)))
    (meanOpt ((otherFiltered t2 p).map (fun r => r.baseSalary)))

/-- A record whose base salary (50) lies outside the interval of
`exPredicate` below. -/
def exEmployee : Employee :=
  { department := "Engineering", jobLevel := "L1", gender := "F",
    ethnicity := "GroupA", baseSalary := 50, compaRatio := 1 }

/-- A predicate with no categorical selection and salary interval
[100, 200], which `exEmployee` fails. -/
def exPredicate : FilterPredicate :=
  { deptFilter := [], jobLevelFilter := [], genderFilter := [],
    ethnicityFilter := [], minSalary := 100, maxSalary := 200,
    minCompa := 0, maxCompa := 2 }

/-- A malformed predicate: salary interval [10, 5] with min > max. -/
def exMalformed : FilterPredicate :=
  { deptFilter := [], jobLevelFilter := [], genderFilter := [],
    ethnicityFilter := [], minSalary := 10, maxSalary := 5,
    minCompa := 0, maxCompa := 2 }

/-- Claim C5 witness: the malformed interval really has min > max, and on
a concrete one-record table the filter yields the empty view. -/
theorem applyFilters_malformed_interval_empty_witness :
    (exMalformed.maxSalary < exMalformed.minSalary ∨
        exMalformed.maxCompa < exMalformed.minCompa) ∧
      applyFilters [exEmployee] exMalformed = [] :=
  ⟨by decide, applyFilters_malformed_interval_empty [exEmployee] exMalformed (by decide)⟩

lemma subOpt_some (a b : ℚ) : subOpt (some a) (some b) = some (a - b) := rfl

lemma otherFiltered_sublist (df : List Employee) (p : FilterPredicate) :
    List.Sublist (otherFiltered df p) df := by
  unfold otherFiltered
  exact (isinFilter_sublist _ _ _).trans ((isinFilter_sublist _ _ _).trans
    ((isinFilter_sublist _ _ _).trans (isinFilter_sublist _ _ _)))

lemma mem_otherFiltered (df : List Employee) (p : FilterPredicate) (r : Employee)
    (h : r ∈ otherFiltered df p) : r ∈ df ∧ satisfiesCategorical p r = true := by
  unfold otherFiltered at h
  rcases mem_isinFilter _ _ _ _ h with ⟨h3, heth⟩
  rcases mem_isinFilter _ _ _ _ h3 with ⟨h2, hgen⟩
  rcases mem_isinFilter _ _ _ _ h2 with ⟨h1, hjob⟩
  rcases mem_isinFilter _ _ _ _ h1 with ⟨hmem, hdep⟩
  refine ⟨hmem, ?_⟩
  unfold satisfiesCategorical
  simp only [Bool.and_eq_true]
  exact ⟨⟨⟨hdep, hjob⟩, hgen⟩, heth⟩

/-- Claim C1 counterexample: on a one-record table whose record passes
every categorical constraint but falls outside the salary interval, the
comparator's alternate-year view keeps the record while the Filter
Engine with the same predicate drops it — the comparator does not apply
the identical predicate. -/
theorem otherFiltered_ne_applyFilters :
    otherFiltered [exEmployee] exPredicate ≠ applyFilters [exEmployee] exPredicate := by
  decide

/-- Claim C1 (amended): the comparator re-applies only the categorical
membership constraints to the alternate year's table, not the numeric
interval constraints; its view is an order-preserving subsequence whose
records all satisfy the categorical constraints, and composing it with
the numeric mask recovers the full Filter Engine. -/
theorem otherFiltered_categorical_stage (df : List Employee) (p : FilterPredicate) :
    applyFilters df p = (otherFiltered df p).filter (numericMask p) ∧
      List.Sublist (otherFiltered df p) df ∧
      ∀ r ∈ otherFiltered df p, satisfiesCategorical p r = true :=
  ⟨rfl, otherFiltered_sublist df p,
    fun r hr => (mem_otherFiltered df p r hr).2⟩

/-- Claim C4 counterexample: with the alternate-year table empty and a
primary table whose only record passes the categorical constraints but
not the salary interval, the count delta is 0 in one direction and -1 in
the other, so the deltas are not antisymmetric. -/
theorem countDelta_not_antisymmetric :
    countDelta [exEmployee] [] exPredicate ≠
      -countDelta [] [exEmployee] exPredicate := by
  decide

/-- Claim C4 (amended): the comparison deltas are antisymmetric whenever
the comparator's categorical-only filtering agrees with the full Filter
Engine on both years' tables (in particular whenever the numeric
intervals exclude no categorically matching record) and both filtered
views are non-empty so the means are defined: swapping the years negates
the count delta, the mean compa-ratio delta and the mean base-salary
delta. -/
theorem comparator_deltas_antisymmetric (t1 t2 : List Employee) (p : FilterPredicate)
    (h1 : otherFiltered t1 p = applyFilters t1 p)
    (h2 : otherFiltered t2 p = applyFilters t2 p)
    (hn1 : applyFilters t1 p ≠ []) (hn2 : applyFilters t2 p ≠ []) :
    countDelta t1 t2 p = -countDelta t2 t1 p ∧
      compaDelta t1 t2 p = Option.map (fun x => -x) (compaDelta t2 t1 p) ∧
      salaryDelta t1 t2 p = Option.map (fun x => -x) (salaryDelta t2 t1 p) := by
  have hmap1 : ∀ f : Employee → ℚ, (applyFilters t1 p).map f ≠ [] := by
    intro f hf
    exact hn1 (List.map_eq_nil_iff.mp hf)
  have hmap2 : ∀ f : Employee → ℚ, (applyFilters t2 p).map f ≠ [] := by
    intro f hf
    exact hn2 (List.map_eq_nil_iff.mp hf)
  refine ⟨?_, ?_, ?_⟩
  · unfold countDelta
    rw [h1, h2]
    ring
  · unfold compaDelta
    rw [h1, h2, meanOpt_of_ne_nil _ (hmap1 _), meanOpt_of_ne_nil _ (hmap2 _),
      subOpt_some, subOpt_some, Option.map_some']
    rw [neg_sub]
  · unfold salaryDelta
    rw [h1, h2, meanOpt_of_ne_nil _ (hmap1 _), meanOpt_of_ne_nil _ (hmap2 _),
      subOpt_some, subOpt_some, Option.map_some']
    rw [neg_sub]

/-- A record passing the wide predicate `cmpPredicate` below. -/
def cmpEmp1 : Employee :=
  { department := "Sales", jobLevel := "L1", gender := "F",
    ethnicity := "GroupA", baseSalary := 100, compaRatio := 1 }

/-- A second record passing `cmpPredicate`. -/
def cmpEmp2 : Employee :=
  { department := "Finance", jobLevel := "L2", gender := "M",
    ethnicity := "GroupB", baseSalary := 200, compaRatio := 2 }

/-- A predicate with no categorical selection and intervals wide enough
to keep both comparison records. -/
def cmpPredicate : FilterPredicate :=
  { deptFilter := [], jobLevelFilter := [], genderFilter := [],
    ethnicityFilter := [], minSalary := 0, maxSalary := 1000,
    minCompa := 0, maxCompa := 10 }

/-- Claim C4 witness: concrete one-record tables for the two years on
which the amended antisymmetry applies. -/
theorem comparator_deltas_antisymmetric_witness :
    countDelta [cmpEmp1] [cmpEmp2] cmpPredicate =
        -countDelta [cmpEmp2] [cmpEmp1] cmpPredicate ∧
      compaDelta [cmpEmp1] [cmpEmp2] cmpPredicate =
        Option.map (fun x => -x) (compaDelta [cmpEmp2] [cmpEmp1] cmpPredicate) ∧
      salaryDelta [cmpEmp1] [cmpEmp2] cmpPredicate =
        Option.map (fun x => -x) (salaryDelta [cmpEmp2] [cmpEmp1] cmpPredicate) :=
  comparator_deltas_antisymmetric [cmpEmp1] [cmpEmp2] cmpPredicate
    (by decide) (by decide) (by decide) (by decide)

/-- Claim C2: on the empty filtered view the metrics block does not
raise (the aggregator is total), but both the mean compa ratio and the
below-midpoint percentage evaluate to the embedded pandas `NaN`
(`none`), which lines 132 and 134 format straight into the report as
`nan` / `nan%` — the code propagates NaN instead of a "no data"
summary. -/
theorem summarize_empty_propagates_nan :
    (summarize []).totalEmployees = 0 ∧
      (summarize []).avgCompaRatio = none ∧
      (summarize []).belowMidpointPct = none := by
  refine ⟨rfl, rfl, rfl⟩

/-- The fixed secret compared against on line 20. -/
def secretPassword : String := "CompDemo2025"

/-- The process-wide session flag of lines 12-13. -/
structure SessionState where
  authenticated : Bool
deriving DecidableEq, Repr

/-- Process start: line 13 initialises the flag to `False`. -/
def initialState : SessionState := { authenticated := false }

/-- One rerun of the auth gate (lines 15-28) with one submitted
password: when already authenticated the gate is skipped; otherwise the
flag becomes true exactly when the submission equals the secret, and is
left unchanged (with an error message) otherwise. -/
def loginStep (st : SessionState) (password : String) : SessionState :=
  if st.authenticated then st
  else if password = secretPassword then { authenticated := true } else st

/-- The session after a sequence of login submissions from process
start. -/
def runLogins (attempts : List String) : SessionState :=
  attempts.foldl loginStep initialState

lemma foldl_loginStep_authenticated (attempts : List String) (st : SessionState) :
    (attempts.foldl loginStep st).authenticated =
      (st.authenticated || attempts.contains secretPassword) := by
  induction attempts generalizing st with
  | nil => simp
  | cons a as ih =>
      rw [List.foldl_cons, ih]
      unfold loginStep
      by_cases ha : st.authenticated
      · simp [ha]
      · by_cases hpw : a = secretPassword
        · simp [ha, hpw]
        · have hpw2 : ¬secretPassword = a := fun h => hpw h.symm
          simp [ha, hpw, hpw2]

/-- Claim C9: the authentication flag is false at process start, and
after any sequence of login submissions it is true exactly when some
submission was string-equal to the fixed secret; no other transition
sets it. -/
theorem authenticated_iff_secret_submitted :
    initialState.authenticated = false ∧
      ∀ attempts : List String,
        ((runLogins attempts).authenticated = true ↔ secretPassword ∈ attempts) := by
  refine ⟨rfl, fun attempts => ?_⟩
  rw [runLogins, foldl_loginStep_authenticated]
  simp [initialState]

/-- A spreadsheet cell: the employee columns are either text or
numeric. -/
inductive Cell where
  | str : String → Cell
  | num : ℚ → Cell
deriving DecidableEq, Repr

/-- The employee-record column schema, in its original order. -/
def employeeColumns : List String :=
  ["Department", "Job_Level", "Gender", "Ethnicity", "Base_Salary", "Compa_Ratio"]

/-- One exported spreadsheet row for an employee record, cells in the
schema's column order. -/
def Employee.toRow (e : Employee) : List Cell :=
  [Cell.str e.department, Cell.str e.jobLevel, Cell.str e.gender,
    Cell.str e.ethnicity, Cell.num e.baseSalary, Cell.num e.compaRatio]

/-- One sheet of a workbook: its name, its header row of column names,
and its data rows. -/
structure ExcelSheet where
  sheetName : String
  header : List String
  dataRows : List (List Cell)
deriving DecidableEq, Repr

/-- A workbook: a list of sheets. -/
structure ExcelFile where
  sheets : List ExcelSheet
deriving DecidableEq, Repr

/-- The Export Builder, `to_excel` (lines 190-195): writes the frame
through the spreadsheet library with `index=False` into a single sheet
named `Filtered_Data`. The library is an external collaborator, modelled
by its contract: a header row of the frame's columns followed by one
data row per record. -/
def to_excel (rows : List Employee) : ExcelFile :=
  { sheets := [{ sheetName := "Filtered_Data", header := employeeColumns,
                 dataRows := rows.map Employee.toRow }] }

/-- One row of the interactive editor frame: the Select checkbox value
alongside the employee record (lines 146-167). -/
structure EditedRow where
  select : Bool
  emp : Employee
deriving DecidableEq, Repr

/-- The `download_df` computation (lines 170-183): when at least one row is marked in
the Select column the download is the marked rows with the Select
column dropped; otherwise it is the whole filtered view. -/
def downloadRows (edited : List EditedRow) (filtered : List Employee) : List Employee :=
  if 0 < (edited.filter (fun row => row.select)).length then
    (edited.filter (fun row => row.select)).map (fun row => row.emp)
  else filtered

/-- The download file name of line 201,
`Employee_Data_<year>_<count>_records.xlsx`. -/
def exportFileName (year : String) (rows : List Employee) : String :=
  "Employee_Data_" ++ year ++ "_" ++ toString rows.length ++ "_records.xlsx"

/-- Claim C6: the Export Builder on zero records yields a well-formed
workbook with exactly one sheet, the employee column headers, and no
data rows. -/
theorem to_excel_empty_rows :
    (to_excel []).sheets.length = 1 ∧
      ∀ s ∈ (to_excel []).sheets,
        s.sheetName = "Filtered_Data" ∧ s.header = employeeColumns ∧
          s.dataRows = [] := by
  refine ⟨rfl, fun s hs => ?_⟩
  rcases List.mem_singleton.mp hs with rfl
  exact ⟨rfl, rfl, rfl⟩

/-- Claim C8: for every editor state and filtered view, the exported
workbook is single-sheet, its columns are exactly the employee record
schema in original order with no Select marker column, and it has one
data row per exported record. -/
theorem export_single_sheet_schema (edited : List EditedRow)
    (filtered : List Employee) :
    (to_excel (downloadRows edited filtered)).sheets.length = 1 ∧
      ∀ s ∈ (to_excel (downloadRows edited filtered)).sheets,
        s.header = employeeColumns ∧ "Select" ∉ s.header ∧
          s.dataRows = (downloadRows edited filtered).map Employee.toRow := by
  refine ⟨rfl, fun s hs => ?_⟩
  rcases List.mem_singleton.mp hs with rfl
  refine ⟨rfl, ?_, rfl⟩
  show "Select" ∉ employeeColumns
  decide

/-- Claim C10: when zero rows are marked Select, the export receives the
entire filtered view — the workbook's single sheet holds every filtered
record in order, and the count in the file name is the filtered view's
size. -/
theorem download_all_when_none_selected (edited : List EditedRow)
    (filtered : List Employee) (year : String)
    (h : (edited.filter (fun row => row.select)).length = 0) :
    downloadRows edited filtered = filtered ∧
      (to_excel (downloadRows edited filtered)).sheets =
        [{ sheetName := "Filtered_Data", header := employeeColumns,
           dataRows := filtered.map Employee.toRow }] ∧
      exportFileName year (downloadRows edited filtered) =
        "Employee_Data_" ++ year ++ "_" ++ toString filtered.length ++
          "_records.xlsx" := by
  have hd : downloadRows edited filtered = filtered := by
    unfold downloadRows
    rw [h]
    simp
  refine ⟨hd, ?_, ?_⟩
  · rw [hd]
    rfl
  · rw [hd]
    rfl

/-- An editor state with one unmarked row. -/
def editedNone : List EditedRow := [{ select := false, emp := exEmployee }]

/-- Claim C10 witness: a concrete one-record filtered view with zero
rows marked Select. -/
theorem download_all_when_none_selected_witness :
    downloadRows editedNone [exEmployee] = [exEmployee] ∧
      (to_excel (downloadRows editedNone [exEmployee])).sheets =
        [{ sheetName := "Filtered_Data", header := employeeColumns,
           dataRows := [exEmployee].map Employee.toRow }] ∧
      exportFileName "2024" (downloadRows editedNone [exEmployee]) =
        "Employee_Data_" ++ "2024" ++ "_" ++ toString ([exEmployee].length) ++
          "_records.xlsx" :=
  download_all_when_none_selected editedNone [exEmployee] "2024" (by decide)
